import Mathlib

/-!
Shallow embedding of the timer scheduling core of a Discord timer bot
(src/index.js).  Wall-clock instants and durations are modelled as signed
integer milliseconds.  JavaScript timeout/interval handles are modelled as
booleans recording whether the callback for that purpose is currently armed;
clearTimeout/clearInterval set the flag to false.  The global Map
activeTimers (channelId -> timer) is modelled as an association list with
unique keys; Map.get / Map.set / Map.delete become lookupTimer / setTimer /
eraseTimer.
-/

namespace TimerBot

/-- Model of the JavaScript expression x or-else y where x is a possibly
absent number: absent and 0 are falsy, so they yield y. -/
def jsOr (x : Option Int) (y : Int) : Int :=
  match x with
  | some v => if v = 0 then y else v
  | none => y

/-- JavaScript truthiness of a possibly absent number: defined and nonzero. -/
def jsTruthy (x : Option Int) : Bool :=
  match x with
  | some v => v != 0
  | none => false

/-- Timer record stored in activeTimers (src/index.js startTimer, lines
754-764, plus the fields added later: warningTime, warningRemainingTime,
warningTimeoutId, pausedAt, pausedRemainingTime).  The three handle fields
record whether the corresponding scheduled callback is armed. -/
structure Timer where
  channelId : Nat
  guildId : Nat
  startTime : Int
  endTime : Int
  duration : Int
  message : String
  timeoutArmed : Bool
  warningArmed : Bool
  intervalArmed : Bool
  isPaused : Bool
  pausedAt : Option Int := none
  pausedRemainingTime : Option Int := none
  warningTime : Option Int := none
  warningRemainingTime : Option Int := none
deriving Repr, DecidableEq

/-- Association-list model of the Map activeTimers; Map.get. -/
def lookupTimer : List (Nat × Timer) → Nat → Option Timer
  | [], _ => none
  | (c, t) :: rest, ch => if c = ch then some t else lookupTimer rest ch

/-- Map.set: replace in place when the key is resident, else append. -/
def setTimer : List (Nat × Timer) → Nat → Timer → List (Nat × Timer)
  | [], ch, t => [(ch, t)]
  | (c, t0) :: rest, ch, t =>
      if c = ch then (ch, t) :: rest else (c, t0) :: setTimer rest ch t

/-- Map.delete. -/
def eraseTimer : List (Nat × Timer) → Nat → List (Nat × Timer)
  | [], _ => []
  | (c, t) :: rest, ch => if c = ch then rest else (c, t) :: eraseTimer rest ch

/-- Capacity constant MAX_TIMERS_PER_GUILD (src/index.js line 50). -/
def MAX_TIMERS_PER_GUILD : Nat := 10

/-- Capacity constant MAX_TOTAL_TIMERS (src/index.js line 51). -/
def MAX_TOTAL_TIMERS : Nat := 100

/-- Loop in canCreateTimer that scans every resident timer and counts those
belonging to the given guild (src/index.js lines 60-63). -/
def guildTimerCount (r : List (Nat × Timer)) (guildId : Nat) : Nat :=
  r.countP (fun p => p.2.guildId == guildId)

/-- canCreateTimer (src/index.js lines 54-71): false when the global map
size has reached MAX_TOTAL_TIMERS or the scanned per-guild count has
reached MAX_TIMERS_PER_GUILD. -/
def canCreateTimer (r : List (Nat × Timer)) (guildId : Nat) : Bool :=
  if MAX_TOTAL_TIMERS ≤ r.length then false
  else if MAX_TIMERS_PER_GUILD ≤ guildTimerCount r guildId then false
  else true

/-- safeCleanupTimer (src/index.js lines 239-248): clears the expiry
timeout, the warning timeout and the refresh interval of one timer. -/
def safeCleanupTimer (t : Timer) : Timer :=
  { t with timeoutArmed := false, warningArmed := false, intervalArmed := false }

/-- scheduleWarning (src/index.js lines 707-728): clear any existing warning
timeout, then arm a new one exactly when the warning instant
(timer.warningTime, defaulting to endTime - 60000) is strictly in the
future and the original duration exceeds one minute. -/
def scheduleWarning (now : Int) (t : Timer) : Timer :=
  let t1 := { t with warningArmed := false }
  let warningTime := t1.warningTime.getD (t1.endTime - 60000)
  let remainingToWarning := warningTime - now
  if 0 < remainingToWarning ∧ 60000 < t1.duration then
    { t1 with warningArmed := true }
  else t1

/-- Result of startTimer: the created timer (none when capacity rejects),
the replaced old timer after its handle teardown (when the channel was
occupied), and the resulting registry. -/
structure StartOutcome where
  created : Option Timer
  replacedOld : Option Timer
  registry : List (Nat × Timer)
deriving Repr, DecidableEq

/-- startTimer (src/index.js lines 731-819).  Rejects via canCreateTimer
returning null and leaving the map untouched; otherwise tears down any
resident timer for the channel with safeCleanupTimer, builds the new timer
with endTime = now + duration, stores it, arms the refresh interval, sets
warningTime = endTime - 60000 and warningRemainingTime, arms the warning
via scheduleWarning, and arms the main expiry timeout. -/
def startTimer (r : List (Nat × Timer)) (now : Int) (channelId guildId : Nat)
    (duration : Int) (message : String) : StartOutcome :=
  if canCreateTimer r guildId then
    let replacedOld := (lookupTimer r channelId).map safeCleanupTimer
    let endTime := now + duration
    let base : Timer :=
      { channelId := channelId, guildId := guildId, startTime := now,
        endTime := endTime, duration := duration, message := message,
        timeoutArmed := false, warningArmed := false, intervalArmed := false,
        isPaused := false }
    let t1 := { base with intervalArmed := true }
    let t2 := { t1 with
      warningTime := some (endTime - 60000),
      warningRemainingTime :=
        if 60000 < duration then some (duration - 60000) else none }
    let t3 := scheduleWarning now t2
    let t4 := { t3 with timeoutArmed := true }
    { created := some t4, replacedOld := replacedOld,
      registry := setTimer r channelId t4 }
  else
    { created := none, replacedOld := none, registry := r }

/-- Snapshot returned by stopTimer (src/index.js lines 826-831). -/
structure TimerInfo where
  message : String
  duration : Int
  remainingTime : Int
  guildId : Nat
deriving Repr, DecidableEq

/-- Result of stopTimer: the snapshot (none models the false return), the
stopped timer after its cancellations, and the resulting registry. -/
structure StopOutcome where
  info : Option TimerInfo
  cleaned : Option Timer
  registry : List (Nat × Timer)
deriving Repr, DecidableEq

/-- stopTimer (src/index.js lines 822-853): regardless of pause state the
snapshot remaining time is Math.max(0, endTime - Date.now()); all three
handles are cleared and the timer is removed from the map. -/
def stopTimer (r : List (Nat × Timer)) (now : Int) (channelId : Nat) :
    StopOutcome :=
  match lookupTimer r channelId with
  | none => { info := none, cleaned := none, registry := r }
  | some t =>
    let remainingTime := t.endTime - now
    let info : TimerInfo :=
      { message := t.message, duration := t.duration,
        remainingTime := max 0 remainingTime, guildId := t.guildId }
    let t1 := { t with timeoutArmed := false, warningArmed := false,
                       intervalArmed := false }
    { info := some info, cleaned := some t1, registry := eraseTimer r channelId }

/-- Result of stopAllTimersInChannel: how many timers were stopped, the
removed timer after the cancellations the handler performs, and the
resulting registry. -/
structure StopAllOutcome where
  timersStopped : Nat
  removed : Option Timer
  registry : List (Nat × Timer)
deriving Repr, DecidableEq

/-- stopAllTimersInChannel (src/index.js lines 316-340): clears the refresh
interval and the expiry timeout of the resident timer and deletes it from
the map.  The warning timeout is not cleared here. -/
def stopAllTimersInChannel (r : List (Nat × Timer)) (channelId : Nat) :
    StopAllOutcome :=
  match lookupTimer r channelId with
  | none => { timersStopped := 0, removed := none, registry := r }
  | some t =>
    let t1 := { t with intervalArmed := false, timeoutArmed := false }
    { timersStopped := 1, removed := some t1,
      registry := eraseTimer r channelId }

/-- Decimal value of a digit string, modelling parseInt applied to the
digits captured by the first regex group of parseTime. -/
def digitsVal (l : List Char) : Nat :=
  l.foldl (fun acc c => 10 * acc + (c.toNat - 48)) 0

/-- Unit multiplier of parseTime (src/index.js lines 589-596): the switch on
the lower-cased unit letter; the regex group [smh] with the i flag admits
both cases. -/
def unitMult (c : Char) : Option Int :=
  if c = 's' ∨ c = 'S' then some 1000
  else if c = 'm' ∨ c = 'M' then some 60000
  else if c = 'h' ∨ c = 'H' then some 3600000
  else none

/-- parseTime (src/index.js lines 579-597).  A falsy (absent or empty)
input yields the stored guild default, with 300000 ms as fallback; a
string matching the anchored pattern of one or more digits followed by a
unit letter yields the parsed value times the unit multiplier; anything
else yields null, modelled as none. -/
def parseTime (timeStr : String) (guildDefault : Option Int) : Option Int :=
  if timeStr = "" then some (jsOr guildDefault 300000)
  else
    match timeStr.data.getLast? with
    | none => none
    | some u =>
      let ds := timeStr.data.dropLast
      if ds ≠ [] ∧ ds.all Char.isDigit then
        match unitMult u with
        | some mult => some ((digitsVal ds : Int) * mult)
        | none => none
      else none

/-- Predicate formalising the anchored duration regex of parseTime: one or
more digits followed by a single unit letter in s, m, h of either case. -/
def matchesDurationGrammar (s : String) : Bool :=
  match s.data.getLast? with
  | none => false
  | some u =>
      s.data.dropLast ≠ [] && (s.data.dropLast).all Char.isDigit
        && (unitMult u).isSome

/-- Outcome of the duration validation of the message-command start handler. -/
inductive CsOutcome where
  | invalidFormat
  | tooShort
  | tooLong
  | started (duration : Int)
deriving Repr, DecidableEq

/-- Duration validation of the !cs message handler (src/index.js lines
1120-1150): parse failure, then the minimum check duration < 1000, then the
maximum check duration > 86400000; only then is startTimer reached. -/
def csCommandValidate (args : String) (guildDefault : Option Int) : CsOutcome :=
  match parseTime args guildDefault with
  | none => CsOutcome.invalidFormat
  | some d =>
    if d < 1000 then CsOutcome.tooShort
    else if 86400000 < d then CsOutcome.tooLong
    else CsOutcome.started d

/-- Outcome of the duration validation of the slash-command timer handler. -/
inductive SlashTimerOutcome where
  | invalidFormat
  | started (duration : Int)
deriving Repr, DecidableEq

/-- Duration validation of the /timer slash handler (src/index.js lines
1652-1694): when the option is truthy the string goes through parseTime,
otherwise the guild default (or 300000) is taken; the only guard is
duration <= 0, where a null from parseTime also compares as true.  There
is no minimum or maximum check on this surface before startTimer runs. -/
def slashTimerHandler (durationStr : Option String) (guildDefault : Option Int) :
    SlashTimerOutcome :=
  let duration : Option Int :=
    match durationStr with
    | some s => if s = "" then some (jsOr guildDefault 300000)
                else parseTime s guildDefault
    | none => some (jsOr guildDefault 300000)
  match duration with
  | none => SlashTimerOutcome.invalidFormat
  | some d => if d ≤ 0 then SlashTimerOutcome.invalidFormat
              else SlashTimerOutcome.started d

/-- Status reported by the timer_pause button handler. -/
inductive PauseToggleStatus where
  | noTimer
  | expiredWhilePaused
  | resumed (t : Timer)
  | paused (t : Timer)
deriving Repr, DecidableEq

/-- timer_pause button handler (src/index.js lines 2108-2265).  On a
running timer: record pausedAt, store pausedRemainingTime as
Math.max(0, endTime - now), clear all three handles, mark paused.  On a
paused timer whose stored remaining (or-else 0) is non-positive: delete
the timer from the map and report it expired, arming nothing.  Otherwise
resume: new endTime = now + stored remaining, recompute warningTime =
endTime - 60000, drop the pause fields, re-arm the refresh interval and
the expiry timeout, and re-arm the warning via scheduleWarning. -/
def timerPauseToggle (r : List (Nat × Timer)) (now : Int) (channelId : Nat) :
    PauseToggleStatus × List (Nat × Timer) :=
  match lookupTimer r channelId with
  | none => (PauseToggleStatus.noTimer, r)
  | some t =>
    if t.isPaused then
      let remainingTime := jsOr t.pausedRemainingTime 0
      if remainingTime ≤ 0 then
        (PauseToggleStatus.expiredWhilePaused, eraseTimer r channelId)
      else
        let t1 := { t with isPaused := false, endTime := now + remainingTime }
        let t2 := { t1 with
          warningTime := some (t1.endTime - 60000),
          warningRemainingTime :=
            if 60000 < remainingTime then some (remainingTime - 60000) else none,
          pausedAt := none, pausedRemainingTime := none,
          intervalArmed := true, timeoutArmed := true }
        let t3 := scheduleWarning now t2
        (PauseToggleStatus.resumed t3, setTimer r channelId t3)
    else
      let remainingTime := t.endTime - now
      let t1 := { t with isPaused := true,
                         pausedAt := some now,
                         pausedRemainingTime := some (max 0 remainingTime),
                         warningRemainingTime := some ((t.endTime - 60000) - now),
                         timeoutArmed := false, warningArmed := false,
                         intervalArmed := false }
      (PauseToggleStatus.paused t1, setTimer r channelId t1)

/-- Result of one refresh tick: the throttle entry for the channel after
the tick, and the remaining value pushed to the message edit if any. -/
structure TickOutcome where
  throttleEntry : Option Int
  pushedRemaining : Option Int
deriving Repr, DecidableEq

/-- updateTimerMessage (src/index.js lines 523-576), the body of the
refresh interval.  hasMessage models the early returns when no tracked
message exists for the channel.  The throttle gate drops the tick when
now - lastUpdate < 500 without touching the entry; otherwise the entry is
set to now.  Remaining is the stored pausedRemainingTime when the timer is
paused and that field is truthy, else endTime - now; a non-positive
remaining deletes the throttle entry and drops the tick, a paused timer
drops the tick, and otherwise the fresh remaining is pushed. -/
def updateTimerMessage (now : Int) (throttleEntry : Option Int)
    (hasMessage : Bool) (t : Timer) : TickOutcome :=
  if hasMessage = false then
    { throttleEntry := throttleEntry, pushedRemaining := none }
  else
    let lastUpdate := jsOr throttleEntry 0
    if now - lastUpdate < 500 then
      { throttleEntry := throttleEntry, pushedRemaining := none }
    else
      let remaining :=
        if t.isPaused && jsTruthy t.pausedRemainingTime then
          jsOr t.pausedRemainingTime 0
        else t.endTime - now
      if remaining ≤ 0 then
        { throttleEntry := none, pushedRemaining := none }
      else if t.isPaused then
        { throttleEntry := some now, pushedRemaining := none }
      else
        { throttleEntry := some now, pushedRemaining := some (t.endTime - now) }

/-- Sample running timer used in concrete instantiations: started at 0 for
101000 ms, all three handles armed, warning instant 41000. -/
def sampleTimer : Timer :=
  { channelId := 7, guildId := 3, startTime := 0, endTime := 101000,
    duration := 101000, message := "x", timeoutArmed := true,
    warningArmed := true, intervalArmed := true, isPaused := false,
    warningTime := some 41000, warningRemainingTime := some 41000 }

/-- Minimal resident timer used to fill registries in capacity tests. -/
def capTimer (c g : Nat) : Timer :=
  { channelId := c, guildId := g, startTime := 0, endTime := 1000,
    duration := 1000, message := "", timeoutArmed := true,
    warningArmed := false, intervalArmed := true, isPaused := false }

/-- Registry holding MAX_TIMERS_PER_GUILD resident timers of guild 0, on
channels 0 through 9. -/
def fullGuildRegistry : List (Nat × Timer) :=
  (List.range MAX_TIMERS_PER_GUILD).map (fun i => (i, capTimer i 0))

/-- Paused timer whose stored remaining time has reached zero, as produced
by pausing at the expiry instant. -/
def expiredPausedTimer : Timer :=
  { channelId := 7, guildId := 3, startTime := 0, endTime := 1000,
    duration := 1000, message := "z", timeoutArmed := false,
    warningArmed := false, intervalArmed := false, isPaused := true,
    pausedAt := some 1000, pausedRemainingTime := some 0 }

/-- Projection extracting the paused timer carried by a paused status. -/
def pausedTimerOf : PauseToggleStatus → Option Timer
  | PauseToggleStatus.paused t => some t
  | _ => none

/-- Projection extracting the resumed timer carried by a resumed status. -/
def resumedTimerOf : PauseToggleStatus → Option Timer
  | PauseToggleStatus.resumed t => some t
  | _ => none

lemma canCreateTimer_eq_false (r : List (Nat × Timer)) (g : Nat)
    (h : MAX_TOTAL_TIMERS ≤ r.length ∨ MAX_TIMERS_PER_GUILD ≤ guildTimerCount r g) :
    canCreateTimer r g = false := by
  unfold canCreateTimer
  rcases h with h | h
  · simp [h]
  · split
    · rfl
    · simp [h]

lemma lookupTimer_of_not_mem (r : List (Nat × Timer)) (c : Nat)
    (h : c ∉ r.map Prod.fst) : lookupTimer r c = none := by
  induction r with
  | nil => rfl
  | cons hd tl ih =>
    obtain ⟨k, v⟩ := hd
    simp only [List.map_cons, List.mem_cons] at h
    push_neg at h
    simp only [lookupTimer]
    rw [if_neg (fun hk => h.1 hk.symm)]
    exact ih h.2

lemma lookupTimer_eraseTimer_self (r : List (Nat × Timer)) (c : Nat)
    (h : (r.map Prod.fst).Nodup) : lookupTimer (eraseTimer r c) c = none := by
  induction r with
  | nil => rfl
  | cons hd tl ih =>
    obtain ⟨k, v⟩ := hd
    simp only [List.map_cons, List.nodup_cons] at h
    simp only [eraseTimer]
    split
    · rename_i hk
      subst hk
      exact lookupTimer_of_not_mem tl k h.1
    · rename_i hk
      simp only [lookupTimer]
      rw [if_neg hk]
      exact ih h.2

lemma one_le_guildTimerCount (r : List (Nat × Timer)) (c : Nat) (t : Timer)
    (g : Nat) (hres : lookupTimer r c = some t) (hg : t.guildId = g) :
    1 ≤ guildTimerCount r g := by
  induction r with
  | nil => simp [lookupTimer] at hres
  | cons hd tl ih =>
    obtain ⟨k, v⟩ := hd
    simp only [lookupTimer] at hres
    by_cases hk : k = c
    · rw [if_pos hk] at hres
      obtain rfl : v = t := by injection hres
      unfold guildTimerCount
      rw [List.countP_cons_of_pos]
      · omega
      · simp [hg]
    · rw [if_neg hk] at hres
      have := ih hres
      unfold guildTimerCount at this ⊢
      rw [List.countP_cons]
      omega

lemma scheduleWarning_duration (now : Int) (t : Timer) :
    (scheduleWarning now t).duration = t.duration := by
  simp only [scheduleWarning]
  split <;> rfl

lemma scheduleWarning_endTime (now : Int) (t : Timer) :
    (scheduleWarning now t).endTime = t.endTime := by
  simp only [scheduleWarning]
  split <;> rfl

lemma scheduleWarning_isPaused (now : Int) (t : Timer) :
    (scheduleWarning now t).isPaused = t.isPaused := by
  simp only [scheduleWarning]
  split <;> rfl

lemma scheduleWarning_pausedRemaining (now : Int) (t : Timer) :
    (scheduleWarning now t).pausedRemainingTime = t.pausedRemainingTime := by
  simp only [scheduleWarning]
  split <;> rfl

lemma scheduleWarning_warningTime (now : Int) (t : Timer) :
    (scheduleWarning now t).warningTime = t.warningTime := by
  simp only [scheduleWarning]
  split <;> rfl

lemma scheduleWarning_short (now : Int) (t : Timer)
    (h : t.duration ≤ 60000) : (scheduleWarning now t).warningArmed = false := by
  simp only [scheduleWarning]
  split
  · rename_i hc
    have h3 : (60000 : Int) < t.duration := hc.2
    exact absurd h3 (not_lt.mpr h)
  · rfl

lemma jsOr_some_zero (v : Int) : jsOr (some v) 0 = v := by
  simp only [jsOr]
  split
  · omega
  · rfl

lemma updateTimerMessage_push_some (now : Int) (st : Option Int) (b : Bool)
    (t : Timer) (st2 : Option Int) (r : Int)
    (h : updateTimerMessage now st b t =
      { throttleEntry := st2, pushedRemaining := some r }) :
    st2 = some now ∧ ¬ (now - jsOr st 0 < 500) := by
  simp only [updateTimerMessage] at h
  split_ifs at h <;>
    simp only [TickOutcome.mk.injEq] at h <;>
    simp_all

/-- C1: the claim states that Stop on a Paused timer returns remaining
equal to the stored pausedRemaining value, not a value recomputed from the
wall clock.  The code disagrees: stopTimer computes
Math.max(0, endTime - Date.now()) unconditionally.  Concretely, pausing
sampleTimer (endTime 101000) at instant 1000 stores pausedRemainingTime
100000, yet stopping 50000 ms later returns remaining 50000, the wall-clock
difference, not the stored 100000. -/
theorem stopTimer_paused_recomputes_wall_clock :
    sampleTimer.isPaused = false
    ∧ ((lookupTimer (timerPauseToggle [(7, sampleTimer)] 1000 7).2 7).map
        (fun t => (t.isPaused, t.pausedRemainingTime))) = some (true, some 100000)
    ∧ ((stopTimer (timerPauseToggle [(7, sampleTimer)] 1000 7).2 51000 7).info.map
        TimerInfo.remainingTime) = some 50000
    ∧ (50000 : Int) ≠ 100000 := by
  decide

/-- C2: the claim states that every transition removing a Timer cancels all
three handles.  The code disagrees at stopAllTimersInChannel, which clears
only the expiry timeout and the refresh interval: a removed timer keeps its
warning timeout armed, while safeCleanupTimer (used by the replacement path
of startTimer) does cancel all three, so a replacing Start leaves exactly
one resident timer whose predecessor has no armed handle. -/
theorem stopAllTimersInChannel_keeps_warning_armed :
    sampleTimer.warningArmed = true
    ∧ ((stopAllTimersInChannel [(7, sampleTimer)] 7).removed.map
        Timer.warningArmed) = some true
    ∧ (stopAllTimersInChannel [(7, sampleTimer)] 7).registry = []
    ∧ (safeCleanupTimer sampleTimer).warningArmed = false
    ∧ ((startTimer [(7, sampleTimer)] 0 7 3 5000 "y").replacedOld.map
        (fun t => (t.timeoutArmed, t.warningArmed, t.intervalArmed)))
        = some (false, false, false)
    ∧ ((startTimer [(7, sampleTimer)] 0 7 3 5000 "y").registry.map
        Prod.fst) = [7] := by
  decide

/-- C3: the claim states that every command surface rejects durations
outside 1000 to 86400000 ms and that a 25-hour request creates nothing.
The message-command surface does reject 25h, but the slash /timer handler
checks only duration lower-or-equal 0, so parseTime "25h" = 90000000
passes the guard and startTimer is reached: a 25-hour timer is created. -/
theorem slash_timer_accepts_25_hours :
    parseTime "25h" none = some 90000000
    ∧ (86400000 : Int) < 90000000
    ∧ csCommandValidate "25h" none = CsOutcome.tooLong
    ∧ slashTimerHandler (some "25h") none = SlashTimerOutcome.started 90000000 := by
  decide

/-- C4: when the registry already holds MAX_TOTAL_TIMERS timers or the
guild already holds MAX_TIMERS_PER_GUILD, startTimer creates nothing and
returns the registry unchanged, so timers of every other guild are
untouched; moreover the per-guild count is exactly the length of the scan
filtering resident timers by guild, not a separately maintained counter. -/
theorem startTimer_capacity_rejected (r : List (Nat × Timer)) (now : Int)
    (channelId guildId : Nat) (duration : Int) (msg : String)
    (h : MAX_TOTAL_TIMERS ≤ r.length
         ∨ MAX_TIMERS_PER_GUILD ≤ guildTimerCount r guildId) :
    (startTimer r now channelId guildId duration msg).created = none
    ∧ (startTimer r now channelId guildId duration msg).registry = r
    ∧ guildTimerCount r guildId
        = (r.filter (fun p => p.2.guildId == guildId)).length := by
  have hcan := canCreateTimer_eq_false r guildId h
  refine ⟨?_, ?_, ?_⟩
  · simp [startTimer, hcan]
  · simp [startTimer, hcan]
  · simp [guildTimerCount, List.countP_eq_length_filter]

/-- Witness for the capacity rejection: a registry holding ten timers of
guild 0 makes startTimer for guild 0 on a fresh channel return nothing. -/
theorem startTimer_capacity_rejected_witness :
    (MAX_TOTAL_TIMERS ≤ fullGuildRegistry.length
     ∨ MAX_TIMERS_PER_GUILD ≤ guildTimerCount fullGuildRegistry 0)
    ∧ ((startTimer fullGuildRegistry 0 99 0 5000 "w").created = none
       ∧ (startTimer fullGuildRegistry 0 99 0 5000 "w").registry = fullGuildRegistry
       ∧ guildTimerCount fullGuildRegistry 0
           = (fullGuildRegistry.filter (fun p => p.2.guildId == 0)).length) :=
  ⟨Or.inr (by decide),
   startTimer_capacity_rejected fullGuildRegistry 0 99 0 5000 "w"
     (Or.inr (by decide))⟩

/-- C10: the capacity scan counts the callers own resident timer, so a
restart of an occupied channel while the guild or the registry is at its
cap is rejected: startTimer returns nothing and the old timer stays
resident, even though replacing it would not raise the count. -/
theorem startTimer_at_cap_rejects_restart (r : List (Nat × Timer))
    (now : Int) (c g : Nat) (d : Int) (msg : String) (t : Timer)
    (hres : lookupTimer r c = some t) (hg : t.guildId = g)
    (hcap : MAX_TOTAL_TIMERS ≤ r.length
            ∨ MAX_TIMERS_PER_GUILD ≤ guildTimerCount r g) :
    (startTimer r now c g d msg).created = none
    ∧ lookupTimer (startTimer r now c g d msg).registry c = some t
    ∧ 1 ≤ guildTimerCount r g := by
  have hcan := canCreateTimer_eq_false r g hcap
  refine ⟨?_, ?_, ?_⟩
  · simp [startTimer, hcan]
  · simp [startTimer, hcan, hres]
  · exact one_le_guildTimerCount r c t g hres hg

/-- Witness for the rejected restart: channel 0 of the full guild-0
registry holds capTimer 0 0, and restarting it is refused with the old
timer still resident. -/
theorem startTimer_at_cap_rejects_restart_witness :
    lookupTimer fullGuildRegistry 0 = some (capTimer 0 0)
    ∧ (capTimer 0 0).guildId = 0
    ∧ (MAX_TOTAL_TIMERS ≤ fullGuildRegistry.length
       ∨ MAX_TIMERS_PER_GUILD ≤ guildTimerCount fullGuildRegistry 0)
    ∧ ((startTimer fullGuildRegistry 5 0 0 7000 "w2").created = none
       ∧ lookupTimer (startTimer fullGuildRegistry 5 0 0 7000 "w2").registry 0
           = some (capTimer 0 0)
       ∧ 1 ≤ guildTimerCount fullGuildRegistry 0) :=
  ⟨by decide, rfl, Or.inr (by decide),
   startTimer_at_cap_rejects_restart fullGuildRegistry 5 0 0 7000 "w2"
     (capTimer 0 0) (by decide) rfl (Or.inr (by decide))⟩

/-- C5: with the warning instant stored as endTime - 60000 (the shape both
call sites establish) or absent, scheduleWarning arms the warning exactly
when the duration exceeds one minute and the warning instant is strictly
in the future; a timer with duration at most one minute never gets a
warning armed, whether through scheduleWarning itself, through the initial
startTimer, or through a resume. -/
theorem scheduleWarning_arms_iff (now : Int) :
    (∀ t : Timer,
        t.warningTime = some (t.endTime - 60000) ∨ t.warningTime = none →
        ((scheduleWarning now t).warningArmed = true ↔
          60000 < t.duration ∧ now < t.endTime - 60000))
    ∧ (∀ t : Timer, t.duration ≤ 60000 →
        (scheduleWarning now t).warningArmed = false)
    ∧ (∀ (r : List (Nat × Timer)) (c g : Nat) (d : Int) (msg : String)
        (ti : Timer), (startTimer r now c g d msg).created = some ti →
        d ≤ 60000 → ti.warningArmed = false)
    ∧ (∀ (r : List (Nat × Timer)) (c : Nat) (ti : Timer),
        (timerPauseToggle r now c).1 = PauseToggleStatus.resumed ti →
        ti.duration ≤ 60000 → ti.warningArmed = false) := by
  refine ⟨?_, scheduleWarning_short now, ?_, ?_⟩
  · intro t hwt
    have hgd : t.warningTime.getD (t.endTime - 60000) = t.endTime - 60000 := by
      rcases hwt with h | h <;> simp [h]
    simp only [scheduleWarning]
    split
    · rename_i hc
      have h1 : (0 : Int) < t.warningTime.getD (t.endTime - 60000) - now := hc.1
      have h2 : (60000 : Int) < t.duration := hc.2
      rw [hgd] at h1
      exact iff_of_true rfl ⟨h2, by omega⟩
    · rename_i hc
      have hc2 : ¬ (0 < t.warningTime.getD (t.endTime - 60000) - now
          ∧ (60000 : Int) < t.duration) := hc
      rw [hgd] at hc2
      refine iff_of_false (by simp) ?_
      rintro ⟨h2, h1⟩
      exact hc2 ⟨by omega, h2⟩
  · intro r c g d msg ti hcr hd
    rw [startTimer] at hcr
    split at hcr
    · simp only at hcr
      injection hcr with h
      subst h
      exact scheduleWarning_short now _ hd
    · simp at hcr
  · intro r c ti hres hd
    rw [timerPauseToggle] at hres
    cases hl : lookupTimer r c with
    | none => rw [hl] at hres; simp at hres
    | some t =>
      rw [hl] at hres
      by_cases hp : t.isPaused = true
      · simp only [hp, if_true] at hres
        split at hres
        · simp at hres
        · simp only at hres
          injection hres with h
          subst h
          rw [scheduleWarning_duration] at hd
          exact scheduleWarning_short now _ hd
      · simp only [hp, if_false] at hres
        simp at hres

/-- C6: a refresh tick is dropped without touching the throttle entry when
less than 500 ms have passed since the last push; a tick on a paused timer
or with non-positive remaining never pushes; otherwise the throttle entry
becomes now and exactly one push carries the fresh remaining
endTime - now; consequently two pushed ticks of one channel are always at
least 500 ms apart. -/
theorem updateTimerMessage_throttle_spec :
    (∀ (now : Int) (st : Option Int) (t : Timer),
        now - jsOr st 0 < 500 →
        updateTimerMessage now st true t =
          { throttleEntry := st, pushedRemaining := none })
    ∧ (∀ (now : Int) (st : Option Int) (b : Bool) (t : Timer),
        t.isPaused = true →
        (updateTimerMessage now st b t).pushedRemaining = none)
    ∧ (∀ (now : Int) (st : Option Int) (b : Bool) (t : Timer),
        t.isPaused = false → t.endTime - now ≤ 0 →
        (updateTimerMessage now st b t).pushedRemaining = none)
    ∧ (∀ (now : Int) (st : Option Int) (t : Timer),
        500 ≤ now - jsOr st 0 → t.isPaused = false → 0 < t.endTime - now →
        updateTimerMessage now st true t =
          { throttleEntry := some now, pushedRemaining := some (t.endTime - now) })
    ∧ (∀ (now1 now2 r1 r2 : Int) (st1 st2 st3 : Option Int) (b1 b2 : Bool)
        (t1 t2 : Timer),
        updateTimerMessage now1 st1 b1 t1 =
          { throttleEntry := st2, pushedRemaining := some r1 } →
        updateTimerMessage now2 st2 b2 t2 =
          { throttleEntry := st3, pushedRemaining := some r2 } →
        500 ≤ now2 - now1) := by
  refine ⟨?_, ?_, ?_, ?_, ?_⟩
  · intro now st t h
    simp [updateTimerMessage, h]
  · intro now st b t hp
    simp only [updateTimerMessage, hp]
    split_ifs <;> rfl
  · intro now st b t hp hr
    simp [updateTimerMessage, hp, hr]
    split_ifs <;> rfl
  · intro now st t h hp hpos
    simp [updateTimerMessage, hp, not_lt.mpr h, not_le.mpr hpos]
  · intro now1 now2 r1 r2 st1 st2 st3 b1 b2 t1 t2 h1 h2
    obtain ⟨hst, -⟩ := updateTimerMessage_push_some now1 st1 b1 t1 st2 r1 h1
    obtain ⟨-, hgap⟩ := updateTimerMessage_push_some now2 st2 b2 t2 st3 r2 h2
    rw [hst, jsOr_some_zero] at hgap
    omega

/-- Witness for the refresh throttle: with no prior push, an unpaused
sampleTimer at instant 1000 pushes remaining 100000 and records the push. -/
theorem updateTimerMessage_throttle_spec_witness :
    500 ≤ (1000 : Int) - jsOr none 0
    ∧ sampleTimer.isPaused = false
    ∧ 0 < sampleTimer.endTime - 1000
    ∧ updateTimerMessage 1000 none true sampleTimer =
        { throttleEntry := some 1000,
          pushedRemaining := some (sampleTimer.endTime - 1000) } :=
  ⟨by decide, rfl, by decide,
   updateTimerMessage_throttle_spec.2.2.2.1 1000 none sampleTimer
     (by decide) rfl (by decide)⟩

/-- Witness for the warning scheduler: sampleTimer (duration 101000,
warning instant 41000) gets its warning armed when scheduled at instant
1000, while the one-second capTimer never does. -/
theorem scheduleWarning_arms_iff_witness :
    (sampleTimer.warningTime = some (sampleTimer.endTime - 60000)
       ∨ sampleTimer.warningTime = none)
    ∧ (scheduleWarning 1000 sampleTimer).warningArmed = true
    ∧ (capTimer 0 0).duration ≤ 60000
    ∧ (scheduleWarning 1000 (capTimer 0 0)).warningArmed = false :=
  ⟨Or.inl (by decide),
   ((scheduleWarning_arms_iff 1000).1 sampleTimer (Or.inl (by decide))).mpr
     (by decide),
   by decide,
   (scheduleWarning_arms_iff 1000).2.1 (capTimer 0 0) (by decide)⟩

/-- C7: pausing a running timer stores pausedRemainingTime as
Math.max(0, endTime - now) and cancels all three handles; toggling again at
the same instant resumes with endTime = now + stored remaining, clears the
pause fields and recomputes the warning instant as endTime - 60000, so the
remaining time survives the round trip unchanged. -/
theorem pause_resume_preserves_remaining (t : Timer) (now : Int) (c : Nat)
    (hrun : t.isPaused = false) (hrem : 0 < t.endTime - now) :
    (∀ t1, pausedTimerOf (timerPauseToggle [(c, t)] now c).1 = some t1 →
        t1.pausedRemainingTime = some (max 0 (t.endTime - now))
        ∧ t1.timeoutArmed = false ∧ t1.warningArmed = false
        ∧ t1.intervalArmed = false ∧ t1.isPaused = true)
    ∧ (pausedTimerOf (timerPauseToggle [(c, t)] now c).1).isSome = true
    ∧ (∀ t2, resumedTimerOf
          (timerPauseToggle (timerPauseToggle [(c, t)] now c).2 now c).1
            = some t2 →
        t2.endTime = now + (t.endTime - now)
        ∧ t2.endTime - now = t.endTime - now
        ∧ t2.pausedRemainingTime = none
        ∧ t2.isPaused = false
        ∧ t2.warningTime = some (t2.endTime - 60000))
    ∧ (resumedTimerOf
          (timerPauseToggle (timerPauseToggle [(c, t)] now c).2 now c).1).isSome
        = true := by
  have hmax : max 0 (t.endTime - now) = t.endTime - now := max_eq_right hrem.le
  have hne : t.endTime - now ≠ 0 := by omega
  have hnle : ¬ (t.endTime - now ≤ 0) := by omega
  have hlook : lookupTimer [(c, t)] c = some t := by simp [lookupTimer]
  refine ⟨?_, ?_, ?_, ?_⟩
  · intro t1 h1
    simp [timerPauseToggle, hlook, hrun, pausedTimerOf] at h1
    subst h1
    simp
  · simp [timerPauseToggle, hlook, hrun, pausedTimerOf]
  · intro t2 h2
    simp [timerPauseToggle, hlook, hrun, setTimer, lookupTimer, hmax,
      jsOr_some_zero, hne, hnle, resumedTimerOf] at h2
    subst h2
    refine ⟨?_, ?_, ?_, ?_, ?_⟩
    · rw [scheduleWarning_endTime]
      simp
      try omega
    · rw [scheduleWarning_endTime]
    · rw [scheduleWarning_pausedRemaining]
    · rw [scheduleWarning_isPaused]
    · rw [scheduleWarning_warningTime, scheduleWarning_endTime]
  · simp [timerPauseToggle, hlook, hrun, setTimer, lookupTimer, hmax,
      jsOr_some_zero, hne, hnle, resumedTimerOf]

/-- Witness for the pause and resume round trip: sampleTimer paused and
resumed at instant 1000 keeps remaining time 100000. -/
theorem pause_resume_preserves_remaining_witness :
    sampleTimer.isPaused = false
    ∧ 0 < sampleTimer.endTime - 1000
    ∧ (∀ t2, resumedTimerOf
          (timerPauseToggle (timerPauseToggle [(7, sampleTimer)] 1000 7).2
            1000 7).1 = some t2 →
        t2.endTime = 1000 + (sampleTimer.endTime - 1000)
        ∧ t2.endTime - 1000 = sampleTimer.endTime - 1000
        ∧ t2.pausedRemainingTime = none
        ∧ t2.isPaused = false
        ∧ t2.warningTime = some (t2.endTime - 60000)) :=
  ⟨rfl, by decide,
   (pause_resume_preserves_remaining sampleTimer 1000 7 rfl (by decide)).2.2.1⟩

/-- C8: toggling a paused timer whose stored remaining time (or-else 0) is
non-positive removes it from the registry and reports it expired while
paused: the channel holds no timer afterwards and no new handle is armed
since the branch produces no timer at all. -/
theorem resume_expired_removes_timer (r : List (Nat × Timer)) (now : Int)
    (c : Nat) (t : Timer) (hkeys : (r.map Prod.fst).Nodup)
    (hl : lookupTimer r c = some t) (hp : t.isPaused = true)
    (hrem : jsOr t.pausedRemainingTime 0 ≤ 0) :
    timerPauseToggle r now c
      = (PauseToggleStatus.expiredWhilePaused, eraseTimer r c)
    ∧ lookupTimer (timerPauseToggle r now c).2 c = none := by
  have h1 : timerPauseToggle r now c
      = (PauseToggleStatus.expiredWhilePaused, eraseTimer r c) := by
    simp [timerPauseToggle, hl, hp, hrem]
  refine ⟨h1, ?_⟩
  rw [h1]
  exact lookupTimer_eraseTimer_self r c hkeys

/-- Witness for the expired-while-paused removal: a registry holding only
expiredPausedTimer on channel 7 is emptied by the toggle. -/
theorem resume_expired_removes_timer_witness :
    ([(7, expiredPausedTimer)].map Prod.fst).Nodup
    ∧ lookupTimer [(7, expiredPausedTimer)] 7 = some expiredPausedTimer
    ∧ expiredPausedTimer.isPaused = true
    ∧ jsOr expiredPausedTimer.pausedRemainingTime 0 ≤ 0
    ∧ (timerPauseToggle [(7, expiredPausedTimer)] 500 7
        = (PauseToggleStatus.expiredWhilePaused,
           eraseTimer [(7, expiredPausedTimer)] 7)
       ∧ lookupTimer (timerPauseToggle [(7, expiredPausedTimer)] 500 7).2 7
           = none) :=
  ⟨by decide, by decide, rfl, by decide,
   resume_expired_removes_timer [(7, expiredPausedTimer)] 500 7
     expiredPausedTimer (by decide) (by decide) rfl (by decide)⟩

/-- C9: a string of one or more digits followed by a unit letter parses to
the digit value times 1000 for s, 60000 for m and 3600000 for h, with both
letter cases accepted; every non-empty string outside that grammar parses
to none; an absent (empty) input resolves to the stored guild default,
falling back to 300000 ms when none (or zero) is stored. -/
theorem parseTime_grammar_spec (guildDefault : Option Int) :
    (∀ (ds : List Char) (u : Char) (mult : Int),
        ds ≠ [] → ds.all Char.isDigit = true → unitMult u = some mult →
        parseTime (String.mk (ds ++ [u])) guildDefault
          = some ((digitsVal ds : Int) * mult))
    ∧ (∀ s : String, s ≠ "" → matchesDurationGrammar s = false →
        parseTime s guildDefault = none)
    ∧ unitMult 's' = some 1000 ∧ unitMult 'S' = some 1000
    ∧ unitMult 'm' = some 60000 ∧ unitMult 'M' = some 60000
    ∧ unitMult 'h' = some 3600000 ∧ unitMult 'H' = some 3600000
    ∧ parseTime "" guildDefault = some (jsOr guildDefault 300000)
    ∧ jsOr none 300000 = 300000
    ∧ (∀ v : Int, v ≠ 0 → jsOr (some v) 300000 = v) := by
  refine ⟨?_, ?_, rfl, rfl, rfl, rfl, rfl, rfl, ?_, rfl, ?_⟩
  · intro ds u mult hne hdig hmu
    have hnonempty : String.mk (ds ++ [u]) ≠ "" := by
      intro h
      have h2 : ds ++ [u] = [] := congrArg String.data h
      simp at h2
    rw [parseTime, if_neg hnonempty]
    simp only [List.getLast?_concat, List.dropLast_concat]
    rw [if_pos ⟨hne, hdig⟩, hmu]
  · intro s hne hgram
    rw [matchesDurationGrammar] at hgram
    rw [parseTime, if_neg hne]
    cases hlast : s.data.getLast? with
    | none => simp
    | some u =>
      rw [hlast] at hgram
      simp only []
      split_ifs with hc
      · cases hmu : unitMult u with
        | none => simp
        | some m =>
          exfalso
          simp [hc.1, hc.2, hmu] at hgram
      · rfl
  · simp [parseTime]
  · intro v hv
    simp [jsOr, hv]

/-- Witness for the duration grammar: the model accepts 25h as 90000000 ms
and rejects the malformed 5x. -/
theorem parseTime_grammar_spec_witness :
    (['2', '5'] : List Char) ≠ []
    ∧ (['2', '5'] : List Char).all Char.isDigit = true
    ∧ unitMult 'h' = some 3600000
    ∧ parseTime (String.mk (['2', '5'] ++ ['h'])) none
        = some ((digitsVal ['2', '5'] : Int) * 3600000)
    ∧ ("5x" : String) ≠ ""
    ∧ matchesDurationGrammar "5x" = false
    ∧ parseTime "5x" none = none :=
  ⟨by decide, by decide, rfl,
   (parseTime_grammar_spec none).1 ['2', '5'] 'h' 3600000 (by decide)
     (by decide) rfl,
   by decide, by decide,
   (parseTime_grammar_spec none).2.1 "5x" (by decide) (by decide)⟩

end TimerBot
